import Mathlib

/-!
Verification development for the Real-Time Rule Evaluation and Alerting
Engine of the Factoryops platform. The definitions below are a shallow
embedding of the engine code in `docs/LLD.md`, section 4.4.3
(`engine/rule_evaluator.go`): `extractValue`, `evaluateRule`,
`shouldEvaluate`, `handleRuleTrigger`, `buildAlertMessage` and
`EvaluateRules`.

Modelling conventions:
- Go `float64` telemetry values and thresholds are modelled as `Rat`
  (all comparisons in the code are order/equality comparisons, exact on
  the rational values that appear).
- Go `time.Time` timestamps are modelled as `Nat` minutes;
  `time.Duration(cooldownMinutes) * time.Minute` becomes addition of
  `cooldownMinutes`, and `time.Now()` becomes an explicit `now : Nat`
  argument threaded to the functions that call it.
- The external repositories (`alertRepo`, `ruleRepo`) and the async
  notification hand-off are modelled as an explicit `EngineState`:
  the list of persisted alerts, the store of per-rule
  `last_triggered` timestamps, the list of dispatched notification
  hand-offs, and a counter of `alertRepo.Create` attempts. Whether a
  given `Create` call succeeds is an oracle `createOk : Alert → Bool`.
-/

namespace FactoryOps

/-- Telemetry payload consumed by the evaluator: `TelemetryPayload` has the
four fixed numeric fields that `extractValue` switches over. -/
structure TelemetryPayload where
  deviceID : String
  voltage : Rat
  current : Rat
  power : Rat
  temperature : Rat
deriving DecidableEq, Repr

/-- `models.Rule` as used by `rule_evaluator.go`: status string, comparison
condition, cooldown and optional last-triggered timestamp. -/
structure Rule where
  id : String
  deviceID : String
  name : String
  property : String
  operator : String
  threshold : Rat
  severity : String
  status : String
  cooldownMinutes : Nat
  lastTriggered : Option Nat
  notificationChannels : List String
deriving DecidableEq, Repr

/-- `models.Alert` as constructed by `handleRuleTrigger`. -/
structure Alert where
  ruleID : String
  deviceID : String
  severity : String
  message : String
  actualValue : Rat
  thresholdValue : Rat
  status : String
  createdAt : Nat
deriving DecidableEq, Repr

/-- `RuleEvaluator.extractValue` (LLD.md 880-893): a switch over the
property name returning the matching telemetry field, and `0` on the
default branch. -/
def extractValue (telemetry : TelemetryPayload) (property : String) : Rat :=
  if property = "voltage" then telemetry.voltage
  else if property = "current" then telemetry.current
  else if property = "power" then telemetry.power
  else if property = "temperature" then telemetry.temperature
  else 0

/-- `RuleEvaluator.evaluateRule` (LLD.md 804-824): extract the actual
value, then switch over the operator string; unknown operators fall to
the default branch returning `false`. -/
def evaluateRule (rule : Rule) (telemetry : TelemetryPayload) : Bool :=
  let actualValue := extractValue telemetry rule.property
  let threshold := rule.threshold
  if rule.operator = ">" then decide (actualValue > threshold)
  else if rule.operator = "<" then decide (actualValue < threshold)
  else if rule.operator = ">=" then decide (actualValue ≥ threshold)
  else if rule.operator = "<=" then decide (actualValue ≤ threshold)
  else if rule.operator = "=" then decide (actualValue = threshold)
  else if rule.operator = "!=" then decide (actualValue ≠ threshold)
  else false

/-- `RuleEvaluator.shouldEvaluate` (LLD.md 826-840): refuse non-active
rules; if `LastTriggered` is set and `now` is before
`LastTriggered + cooldownMinutes`, refuse; otherwise accept.
`time.Now()` is the explicit `now` argument. -/
def shouldEvaluate (rule : Rule) (now : Nat) : Bool :=
  if rule.status ≠ "active" then false
  else
    match rule.lastTriggered with
    | some t => if now < t + rule.cooldownMinutes then false else true
    | none => true

/-- `RuleEvaluator.buildAlertMessage` (LLD.md 867-878), the `fmt.Sprintf`
rendered as string concatenation (numeric formatting via `toString`). -/
def buildAlertMessage (rule : Rule) (telemetry : TelemetryPayload) : String :=
  let actualValue := extractValue telemetry rule.property
  "Alert: " ++ rule.name ++ " - Device " ++ telemetry.deviceID ++ " "
    ++ rule.property ++ " is " ++ toString actualValue
    ++ " (threshold: " ++ rule.operator ++ " " ++ toString rule.threshold ++ ")"

/-- State of the external collaborators of the evaluator: persisted
alerts (`alertRepo`), the per-rule-id `last_triggered` store
(`ruleRepo.UpdateLastTriggered` writes it, `GetActiveRulesByDevice`
reads it), dispatched notification hand-offs
(`notificationSvc.SendAlertNotifications`), and a count of
`alertRepo.Create` calls made. -/
structure EngineState where
  alerts : List Alert
  lastTriggeredAt : String → Option Nat
  notifications : List (Alert × List String)
  createAttempts : Nat

/-- The alert record built at the top of `handleRuleTrigger`
(LLD.md 844-853). Note the code takes `DeviceID` from the rule. -/
def mkAlert (rule : Rule) (telemetry : TelemetryPayload) (now : Nat) : Alert :=
  { ruleID := rule.id
  , deviceID := rule.deviceID
  , severity := rule.severity
  , message := buildAlertMessage rule telemetry
  , actualValue := extractValue telemetry rule.property
  , thresholdValue := rule.threshold
  , status := "open"
  , createdAt := now }

/-- `RuleEvaluator.handleRuleTrigger` (LLD.md 842-865): build the alert
and call `alertRepo.Create`; on error, log and return (no retry, no
state change beyond the attempted call); on success, persist the alert,
call `ruleRepo.UpdateLastTriggered(rule.ID, now)` and hand the alert
off to the notification service. -/
def handleRuleTrigger (createOk : Alert → Bool) (rule : Rule)
    (telemetry : TelemetryPayload) (now : Nat) (s : EngineState) : EngineState :=
  let alert := mkAlert rule telemetry now
  if createOk alert then
    { alerts := s.alerts ++ [alert]
    , lastTriggeredAt := fun rid =>
        if rid = rule.id then some now else s.lastTriggeredAt rid
    , notifications := s.notifications ++ [(alert, rule.notificationChannels)]
    , createAttempts := s.createAttempts + 1 }
  else
    { s with createAttempts := s.createAttempts + 1 }

/-- Body of the loop in `RuleEvaluator.EvaluateRules` (LLD.md 793-799):
gate on `shouldEvaluate`, then on `evaluateRule`, then run
`handleRuleTrigger`. -/
def evalRuleStep (createOk : Alert → Bool) (telemetry : TelemetryPayload)
    (now : Nat) (s : EngineState) (rule : Rule) : EngineState :=
  if shouldEvaluate rule now then
    if evaluateRule rule telemetry then
      handleRuleTrigger createOk rule telemetry now s
    else s
  else s

/-- The loop of `RuleEvaluator.EvaluateRules` (LLD.md 786-802) over the
list of rules that `GetActiveRulesByDevice` returned. -/
def EvaluateRules (createOk : Alert → Bool) (rules : List Rule)
    (telemetry : TelemetryPayload) (now : Nat) (s : EngineState) : EngineState :=
  match rules with
  | [] => s
  | rule :: rest =>
      EvaluateRules createOk rest telemetry now
        (evalRuleStep createOk telemetry now s rule)

/-- `RuleEvaluator.EvaluateRules` including its error path: the only
`error` return is a failure of `ruleRepo.GetActiveRulesByDevice`
(LLD.md 788-791); once the rules are fetched the function always
returns `nil` (here: `Except.ok` of the final state). -/
def EvaluateRulesE (createOk : Alert → Bool)
    (fetched : Except String (List Rule)) (telemetry : TelemetryPayload)
    (now : Nat) (s : EngineState) : Except String EngineState :=
  match fetched with
  | Except.error e => Except.error e
  | Except.ok rules => Except.ok (EvaluateRules createOk rules telemetry now s)

/-- `GetActiveRulesByDevice` re-reads each rule from the store: the
record a worker evaluates carries the `last_triggered` value held by the
store at fetch time. -/
def fetchRule (base : Rule) (s : EngineState) : Rule :=
  { base with lastTriggered := s.lastTriggeredAt base.id }

/-- One complete evaluation pass of a single worker for one rule:
fetch the rule record from the store, then run the evaluation loop body
on it. Corresponds to one `EvaluateRules` call for a device with this
one rule. -/
def workerPass (createOk : Alert → Bool) (base : Rule)
    (telemetry : TelemetryPayload) (now : Nat) (s : EngineState) : EngineState :=
  evalRuleStep createOk telemetry now s (fetchRule base s)

/-- `n` workers evaluating the same rule one after the other, each
fetching only after the previous one finished (fully serialized). -/
def sequentialWorkers (createOk : Alert → Bool) (base : Rule)
    (telemetry : TelemetryPayload) (now : Nat) : Nat → EngineState → EngineState
  | 0, s => s
  | n + 1, s =>
      sequentialWorkers createOk base telemetry now n
        (workerPass createOk base telemetry now s)

/-- Two workers evaluating the same rule concurrently, under the
interleaving in which both fetch the rule record (the
`GetActiveRulesByDevice` read) before either runs its trigger path (the
`alertRepo.Create` / `UpdateLastTriggered` writes). Nothing in the code
serializes the two calls, so this schedule is one the runtime permits. -/
def twoWorkersBothFetchFirst (createOk : Alert → Bool) (base : Rule)
    (telemetry : TelemetryPayload) (now : Nat) (s : EngineState) : EngineState :=
  let r1 := fetchRule base s
  let r2 := fetchRule base s
  evalRuleStep createOk telemetry now
    (evalRuleStep createOk telemetry now s r1) r2

/-- The operator table of the specification, section 4.2: a pure
function of actual value, operator and threshold (spec-side definition,
for comparison with `evaluateRule`). -/
def condOpSpec (actual : Rat) (op : String) (threshold : Rat) : Bool :=
  if op = ">" then decide (actual > threshold)
  else if op = "<" then decide (actual < threshold)
  else if op = ">=" then decide (actual ≥ threshold)
  else if op = "<=" then decide (actual ≤ threshold)
  else if op = "=" then decide (actual = threshold)
  else if op = "!=" then decide (actual ≠ threshold)
  else false

/-- Oracle for an alert repository whose writes always succeed. -/
def alwaysOk : Alert → Bool := fun _ => true

/-- Oracle for an alert repository whose writes always fail. -/
def alwaysFail : Alert → Bool := fun _ => false

/-- Initial state: no alerts, no recorded triggers, no notifications. -/
def emptyState : EngineState :=
  { alerts := []
  , lastTriggeredAt := fun _ => none
  , notifications := []
  , createAttempts := 0 }

/-- Scenario A rule: temperature > 50, cooldown 15 minutes, active,
never triggered. -/
def tempRule : Rule :=
  { id := "R1"
  , deviceID := "D1"
  , name := "High Temperature"
  , property := "temperature"
  , operator := ">"
  , threshold := 50
  , severity := "high"
  , status := "active"
  , cooldownMinutes := 15
  , lastTriggered := none
  , notificationChannels := ["email"] }

/-- Scenario A event: temperature 55. -/
def tempEvent55 : TelemetryPayload :=
  { deviceID := "D1", voltage := 0, current := 0, power := 0, temperature := 55 }

/-- Scenario C rule: voltage < 200, active, never triggered. -/
def voltageLtRule : Rule :=
  { tempRule with
    id := "R3"
    name := "Low Voltage"
    property := "voltage"
    operator := "<"
    threshold := 200 }

/-- Scenario C event: voltage 230. -/
def voltEvent230 : TelemetryPayload :=
  { deviceID := "D1", voltage := 230, current := 0, power := 0, temperature := 0 }

/-- A rule whose target property is carried by no telemetry event:
`humidity` is not one of the four payload fields. -/
def humidityRule : Rule :=
  { tempRule with
    id := "R4"
    name := "Low Humidity"
    property := "humidity"
    operator := "<"
    threshold := 200
    cooldownMinutes := 0 }

/-- Scenario A/B rule after a trigger recorded at minute 0. -/
def tempRuleTriggeredAt0 : Rule :=
  { tempRule with lastTriggered := some 0 }

/-- An active zero-cooldown rule whose recorded trigger time lies in the
future of the evaluating worker's clock (minute 11, evaluated at 10). -/
def zeroCooldownFutureRule : Rule :=
  { tempRule with
    id := "R5"
    cooldownMinutes := 0
    lastTriggered := some 11 }

/-- An active zero-cooldown rule last triggered at minute 3. -/
def zeroCooldownPastRule : Rule :=
  { tempRule with
    id := "R6"
    cooldownMinutes := 0
    lastTriggered := some 3 }

/-- The concurrency scenario rule: cooldown 5 minutes, active, never
triggered, condition temperature > 50. -/
def raceRule : Rule :=
  { tempRule with cooldownMinutes := 5 }

/-- A malformed rule: its operator is none of the six known operators. -/
def malformedRule : Rule :=
  { tempRule with
    id := "R7"
    operator := "**" }

/-- Scenario A rule, paused. -/
def pausedRule : Rule :=
  { tempRule with
    id := "R8"
    status := "paused" }

/-! ## Helper lemmas (shared) -/

/-- A rule whose loop body never changes the state can be spliced out of
the rule list without changing the outcome of `EvaluateRules`. -/
theorem EvaluateRules_splice_skipped (createOk : Alert → Bool) (r : Rule)
    (telemetry : TelemetryPayload) (now : Nat)
    (hstep : ∀ s : EngineState, evalRuleStep createOk telemetry now s r = s) :
    ∀ (l1 l2 : List Rule) (s : EngineState),
      EvaluateRules createOk (l1 ++ r :: l2) telemetry now s
        = EvaluateRules createOk (l1 ++ l2) telemetry now s
  | [], l2, s => by
      rw [List.nil_append, List.nil_append, EvaluateRules, hstep s]
  | a :: l1, l2, s => by
      rw [List.cons_append, List.cons_append, EvaluateRules, EvaluateRules]
      exact EvaluateRules_splice_skipped createOk r telemetry now hstep l1 l2 _

/-- The condition a worker evaluates does not depend on the
`lastTriggered` field it fetched. -/
theorem evaluateRule_fetchRule (base : Rule) (s : EngineState)
    (telemetry : TelemetryPayload) :
    evaluateRule (fetchRule base s) telemetry = evaluateRule base telemetry := rfl

/-- A worker that fetches a record with no recorded trigger and sees a
breaching value runs the full trigger path. -/
theorem workerPass_granted (createOk : Alert → Bool) (base : Rule)
    (telemetry : TelemetryPayload) (now : Nat) (s : EngineState)
    (hA : base.status = "active") (h0 : s.lastTriggeredAt base.id = none)
    (hBreach : evaluateRule base telemetry = true) :
    workerPass createOk base telemetry now s
      = handleRuleTrigger createOk (fetchRule base s) telemetry now s := by
  have hse : shouldEvaluate (fetchRule base s) now = true := by
    simp [shouldEvaluate, fetchRule, hA, h0]
  simp [workerPass, evalRuleStep, hse, evaluateRule_fetchRule, hBreach]

/-- A worker that fetches a record whose cooldown window is still open
leaves the state untouched. -/
theorem workerPass_suppressed (createOk : Alert → Bool) (base : Rule)
    (telemetry : TelemetryPayload) (now tt : Nat) (s : EngineState)
    (hlt : s.lastTriggeredAt base.id = some tt)
    (h : now < tt + base.cooldownMinutes) :
    workerPass createOk base telemetry now s = s := by
  have hse : shouldEvaluate (fetchRule base s) now = false := by
    simp [shouldEvaluate, fetchRule, hlt, h]
  simp [workerPass, evalRuleStep, hse]

/-- Any number of serialized workers leave a state untouched while the
recorded trigger keeps the cooldown window open. -/
theorem sequentialWorkers_fixed (createOk : Alert → Bool) (base : Rule)
    (telemetry : TelemetryPayload) (now tt : Nat) :
    ∀ (m : Nat) (s : EngineState), s.lastTriggeredAt base.id = some tt →
      now < tt + base.cooldownMinutes →
      sequentialWorkers createOk base telemetry now m s = s
  | 0, _, _, _ => rfl
  | m + 1, s, hlt, h => by
      rw [sequentialWorkers,
        workerPass_suppressed createOk base telemetry now tt s hlt h]
      exact sequentialWorkers_fixed createOk base telemetry now tt m s hlt h

/-! ## Claim theorems -/

/-- Claim C5: a rule whose status is not `active` is never evaluated or
triggered: splicing such a rule into any candidate list leaves the
entire outcome of `EvaluateRules` (alerts, trigger timestamps,
notifications, create attempts) unchanged. -/
theorem C5_inactive_rule_never_evaluated (rule : Rule)
    (h : rule.status ≠ "active") (createOk : Alert → Bool)
    (l1 l2 : List Rule) (telemetry : TelemetryPayload) (now : Nat)
    (s : EngineState) :
    EvaluateRules createOk (l1 ++ rule :: l2) telemetry now s
      = EvaluateRules createOk (l1 ++ l2) telemetry now s := by
  refine EvaluateRules_splice_skipped createOk rule telemetry now
    (fun s0 => ?_) l1 l2 s
  have hse : shouldEvaluate rule now = false := by
    simp [shouldEvaluate, h]
  simp [evalRuleStep, hse]

/-- Witness for C5 at a concrete input: a paused rule among the
candidates changes nothing. -/
theorem C5_inactive_rule_never_evaluated_witness :
    EvaluateRules alwaysOk [tempRule, pausedRule] tempEvent55 100 emptyState
      = EvaluateRules alwaysOk [tempRule] tempEvent55 100 emptyState :=
  C5_inactive_rule_never_evaluated pausedRule (by decide) alwaysOk
    [tempRule] [] tempEvent55 100 emptyState

/-- Claim C6: the condition evaluation of `evaluateRule` is a pure
function of actual value, operator and threshold, agreeing with the
specification's operator table on every rule and telemetry event; in
particular the Scenario C rule (voltage < 200) does not trigger on
voltage 230. -/
theorem C6_condition_evaluator_table :
    (∀ (rule : Rule) (telemetry : TelemetryPayload),
      evaluateRule rule telemetry
        = condOpSpec (extractValue telemetry rule.property)
            rule.operator rule.threshold)
    ∧ evaluateRule voltageLtRule voltEvent230 = false :=
  ⟨fun _ _ => rfl, by decide⟩

/-- Claim C7 (Scenario A): the active temperature > 50 rule with no
prior trigger, against an event with temperature 55, creates exactly
one alert carrying actual value 55 and threshold value 50. -/
theorem C7_scenarioA_single_alert_with_values :
    (EvaluateRules alwaysOk [tempRule] tempEvent55 100 emptyState).alerts.length = 1
    ∧ ((EvaluateRules alwaysOk [tempRule] tempEvent55 100 emptyState).alerts.map
        (fun a => (a.actualValue, a.thresholdValue))) = [(55, 50)] := by
  decide

/-- Claim C8: a rule whose operator is outside the six known operators
never triggers (`evaluateRule` falls to the default branch), and its
presence in a candidate list does not abort or change the evaluation of
any other rule of the event. -/
theorem C8_malformed_rule_skipped_and_isolated (m : Rule)
    (h1 : m.operator ≠ ">") (h2 : m.operator ≠ "<")
    (h3 : m.operator ≠ ">=") (h4 : m.operator ≠ "<=")
    (h5 : m.operator ≠ "=") (h6 : m.operator ≠ "!=")
    (createOk : Alert → Bool) (l1 l2 : List Rule)
    (telemetry : TelemetryPayload) (now : Nat) (s : EngineState) :
    evaluateRule m telemetry = false
    ∧ EvaluateRules createOk (l1 ++ m :: l2) telemetry now s
        = EvaluateRules createOk (l1 ++ l2) telemetry now s := by
  have hev : evaluateRule m telemetry = false := by
    simp [evaluateRule, h1, h2, h3, h4, h5, h6]
  refine ⟨hev, EvaluateRules_splice_skipped createOk m telemetry now
    (fun s0 => ?_) l1 l2 s⟩
  simp [evalRuleStep, hev]

/-- Witness for C8 at a concrete input: a rule with operator `**`
between the candidates changes nothing. -/
theorem C8_malformed_rule_witness :
    evaluateRule malformedRule tempEvent55 = false
    ∧ EvaluateRules alwaysOk [tempRule, malformedRule] tempEvent55 100 emptyState
        = EvaluateRules alwaysOk [tempRule] tempEvent55 100 emptyState :=
  C8_malformed_rule_skipped_and_isolated malformedRule (by decide) (by decide)
    (by decide) (by decide) (by decide) (by decide) alwaysOk [tempRule] []
    tempEvent55 100 emptyState

/-- Claim C10: when `alertRepo.Create` fails, `handleRuleTrigger`
leaves the rule's recorded trigger timestamp and the notification
hand-offs (and the persisted alerts) exactly as they were; only the
failed create attempt is counted. -/
theorem C10_create_failure_no_mutation (createOk : Alert → Bool)
    (rule : Rule) (telemetry : TelemetryPayload) (now : Nat)
    (s : EngineState)
    (hfail : createOk (mkAlert rule telemetry now) = false) :
    handleRuleTrigger createOk rule telemetry now s
      = { s with createAttempts := s.createAttempts + 1 } := by
  simp [handleRuleTrigger, hfail]

/-- Witness for C10 at a concrete input: an always-failing repository
leaves the empty state unchanged apart from the attempt counter. -/
theorem C10_create_failure_no_mutation_witness :
    handleRuleTrigger alwaysFail tempRule tempEvent55 100 emptyState
      = { emptyState with createAttempts := emptyState.createAttempts + 1 } :=
  C10_create_failure_no_mutation alwaysFail tempRule tempEvent55 100
    emptyState rfl

/-- Claim C2 fails on the code: against an event carrying no value for
the rule's property (here `humidity`), `extractValue` returns `0` — not
an absence sentinel — and the rule is evaluated with actual value 0, so
an operator such as `<` does trigger and an alert is created. -/
theorem C2_counterexample_missing_property_triggers :
    extractValue tempEvent55 "humidity" = 0
    ∧ evaluateRule humidityRule tempEvent55 = true
    ∧ (EvaluateRules alwaysOk [humidityRule] tempEvent55 0 emptyState).alerts.length = 1 := by
  decide

/-- Claim C2 amended: for a rule whose target property is not among the
four telemetry fields, value extraction yields 0 (the missing value is
coerced to 0, there is no absence sentinel and the rule is not
skipped), the rule's condition is evaluated with actual value 0 per the
operator table, and evaluating the whole event still returns without
error. -/
theorem C2_amended_missing_property_coerced_to_zero (rule : Rule)
    (telemetry : TelemetryPayload)
    (h1 : rule.property ≠ "voltage") (h2 : rule.property ≠ "current")
    (h3 : rule.property ≠ "power") (h4 : rule.property ≠ "temperature") :
    extractValue telemetry rule.property = 0
    ∧ evaluateRule rule telemetry = condOpSpec 0 rule.operator rule.threshold
    ∧ ∀ (createOk : Alert → Bool) (rules : List Rule) (now : Nat)
        (s : EngineState), ∃ s2,
        EvaluateRulesE createOk (Except.ok rules) telemetry now s
          = Except.ok s2 := by
  have hx : extractValue telemetry rule.property = 0 := by
    simp [extractValue, h1, h2, h3, h4]
  have heq : evaluateRule rule telemetry
      = condOpSpec (extractValue telemetry rule.property)
          rule.operator rule.threshold := rfl
  rw [hx] at heq
  exact ⟨hx, heq, fun createOk rules now s => ⟨_, rfl⟩⟩

/-- Witness for the amended C2 at a concrete input: the humidity rule
against the temperature event. -/
theorem C2_amended_missing_property_witness :
    extractValue tempEvent55 humidityRule.property = 0
    ∧ evaluateRule humidityRule tempEvent55
        = condOpSpec 0 humidityRule.operator humidityRule.threshold
    ∧ ∀ (createOk : Alert → Bool) (rules : List Rule) (now : Nat)
        (s : EngineState), ∃ s2,
        EvaluateRulesE createOk (Except.ok rules) tempEvent55 now s
          = Except.ok s2 :=
  C2_amended_missing_property_coerced_to_zero humidityRule tempEvent55
    (by decide) (by decide) (by decide) (by decide)

/-- Claim C3: an active rule last triggered at minute `t`, against a
breaching event with a succeeding alert repository, produces exactly
one new alert if and only if `now` is at least `t + cooldownMinutes`;
inside the window the whole state is unchanged. -/
theorem C3_cooldown_gate_iff (rule : Rule) (telemetry : TelemetryPayload)
    (t now : Nat) (s : EngineState)
    (hA : rule.status = "active") (hLT : rule.lastTriggered = some t)
    (hBreach : evaluateRule rule telemetry = true) :
    ((EvaluateRules alwaysOk [rule] telemetry now s).alerts.length
        = s.alerts.length + 1 ↔ t + rule.cooldownMinutes ≤ now)
    ∧ (now < t + rule.cooldownMinutes →
        EvaluateRules alwaysOk [rule] telemetry now s = s) := by
  by_cases h : now < t + rule.cooldownMinutes
  · have hse : shouldEvaluate rule now = false := by
      simp [shouldEvaluate, hA, hLT, h]
    have hres : EvaluateRules alwaysOk [rule] telemetry now s = s := by
      simp [EvaluateRules, evalRuleStep, hse]
    refine ⟨?_, fun _ => hres⟩
    rw [hres]
    omega
  · have hse : shouldEvaluate rule now = true := by
      simp [shouldEvaluate, hA, hLT, h]
    have hres : EvaluateRules alwaysOk [rule] telemetry now s
        = handleRuleTrigger alwaysOk rule telemetry now s := by
      simp [EvaluateRules, evalRuleStep, hse, hBreach]
    refine ⟨?_, fun hcontra => absurd hcontra h⟩
    rw [hres]
    simp [handleRuleTrigger, alwaysOk]
    omega

/-- Witness for C3 at concrete inputs (Scenario B): with a 15-minute
cooldown last triggered at minute 0, evaluation at minute 16 creates a
new alert and evaluation at minute 5 changes nothing. -/
theorem C3_cooldown_gate_iff_witness :
    (EvaluateRules alwaysOk [tempRuleTriggeredAt0] tempEvent55 16
        emptyState).alerts.length = emptyState.alerts.length + 1
    ∧ EvaluateRules alwaysOk [tempRuleTriggeredAt0] tempEvent55 5 emptyState
        = emptyState := by
  constructor
  · exact (C3_cooldown_gate_iff tempRuleTriggeredAt0 tempEvent55 0 16
      emptyState rfl rfl (by decide)).1.mpr (by decide)
  · exact (C3_cooldown_gate_iff tempRuleTriggeredAt0 tempEvent55 0 5
      emptyState rfl rfl (by decide)).2 (by decide)

/-- Claim C9 fails on the code: with `cooldownMinutes = 0` the gate
does not grant regardless of `lastTriggeredAt` — a recorded trigger
time in the future of the evaluating clock (minute 11, evaluated at
minute 10, as written by a worker with a skewed clock) suppresses a
breaching event. -/
theorem C9_counterexample_future_lastTriggered :
    evaluateRule zeroCooldownFutureRule tempEvent55 = true
    ∧ shouldEvaluate zeroCooldownFutureRule 10 = false
    ∧ (EvaluateRules alwaysOk [zeroCooldownFutureRule] tempEvent55 10
        emptyState).alerts = [] := by
  decide

/-- Claim C9 amended: for an active rule with `cooldownMinutes = 0`
whose recorded trigger time (if any) does not lie in the future of the
evaluating clock, every breaching telemetry event produces a trigger. -/
theorem C9_amended_zero_cooldown_grants (rule : Rule)
    (telemetry : TelemetryPayload) (now : Nat) (s : EngineState)
    (hA : rule.status = "active") (hc : rule.cooldownMinutes = 0)
    (hlt : ∀ t, rule.lastTriggered = some t → t ≤ now)
    (hBreach : evaluateRule rule telemetry = true) :
    (EvaluateRules alwaysOk [rule] telemetry now s).alerts
      = s.alerts ++ [mkAlert rule telemetry now] := by
  have hse : shouldEvaluate rule now = true := by
    rcases hfin : rule.lastTriggered with _ | t
    · simp [shouldEvaluate, hA, hfin]
    · have ht : t ≤ now := hlt t hfin
      have h2 : ¬ now < t + rule.cooldownMinutes := by omega
      simp [shouldEvaluate, hA, hfin, h2]
  simp [EvaluateRules, evalRuleStep, hse, hBreach, handleRuleTrigger, alwaysOk]

/-- Witness for the amended C9 at a concrete input: zero cooldown, last
triggered at minute 3, breaching event at minute 10. -/
theorem C9_amended_zero_cooldown_grants_witness :
    (EvaluateRules alwaysOk [zeroCooldownPastRule] tempEvent55 10
        emptyState).alerts
      = emptyState.alerts ++ [mkAlert zeroCooldownPastRule tempEvent55 10] :=
  C9_amended_zero_cooldown_grants zeroCooldownPastRule tempEvent55 10
    emptyState rfl rfl
    (by intro t h; simp [zeroCooldownPastRule, tempRule] at h; omega)
    (by decide)

/-- Claim C1 fails on the code: the cooldown check and the recording of
the trigger are separate, unserialized steps, so under the interleaving
in which two workers both fetch the rule before either records, both
evaluations of the same rule (cooldown 5 minutes, both at minute 100,
window open for neither at fetch time) are granted: two alerts for rule
R1 are created instead of one. -/
theorem C1_counterexample_concurrent_double_grant :
    (twoWorkersBothFetchFirst alwaysOk raceRule tempEvent55 100
        emptyState).alerts.length = 2
    ∧ ((twoWorkersBothFetchFirst alwaysOk raceRule tempEvent55 100
        emptyState).alerts.map Alert.ruleID) = ["R1", "R1"] := by
  decide

/-- Claim C1 amended: only when the N evaluations of the same rule are
serialized — each one fetches the rule record after the previous one
finished recording — does breaching telemetry against an active,
never-triggered rule with positive cooldown yield exactly one granted
trigger (one alert, one create attempt) with the other N−1 suppressed;
the code itself provides no such serialization, so concurrent
interleavings can grant more than one. -/
theorem C1_amended_sequential_single_grant (base : Rule)
    (telemetry : TelemetryPayload) (now : Nat) (n : Nat) (s : EngineState)
    (hA : base.status = "active") (hc : 1 ≤ base.cooldownMinutes)
    (h0 : s.lastTriggeredAt base.id = none)
    (hBreach : evaluateRule base telemetry = true) (hn : 1 ≤ n) :
    (sequentialWorkers alwaysOk base telemetry now n s).alerts.length
        = s.alerts.length + 1
    ∧ (sequentialWorkers alwaysOk base telemetry now n s).createAttempts
        = s.createAttempts + 1 := by
  obtain ⟨k, rfl⟩ : ∃ k, n = k + 1 := ⟨n - 1, by omega⟩
  rw [sequentialWorkers,
    workerPass_granted alwaysOk base telemetry now s hA h0 hBreach]
  have hlt1 : (handleRuleTrigger alwaysOk (fetchRule base s) telemetry now
      s).lastTriggeredAt base.id = some now := by
    simp [handleRuleTrigger, alwaysOk, fetchRule]
  rw [sequentialWorkers_fixed alwaysOk base telemetry now now k _ hlt1
    (by omega)]
  constructor
  · simp [handleRuleTrigger, alwaysOk]
  · simp [handleRuleTrigger, alwaysOk]

/-- Witness for the amended C1 at a concrete input: three serialized
evaluations of the cooldown-5 rule at minute 100 produce one alert and
one create attempt. -/
theorem C1_amended_sequential_single_grant_witness :
    (sequentialWorkers alwaysOk raceRule tempEvent55 100 3
        emptyState).alerts.length = emptyState.alerts.length + 1
    ∧ (sequentialWorkers alwaysOk raceRule tempEvent55 100 3
        emptyState).createAttempts = emptyState.createAttempts + 1 :=
  C1_amended_sequential_single_grant raceRule tempEvent55 100 3 emptyState
    rfl (by decide) rfl (by decide) (by decide)

/-- Claim C4 fails on the code: with an always-failing alert
repository, a made trigger decision (gate and condition both pass) ends
in a single create attempt, no persisted alert, and `EvaluateRules`
still returning success — the write is not retried and the failure is
not escalated to the caller. -/
theorem C4_counterexample_silent_drop :
    EvaluateRulesE alwaysFail (Except.ok [tempRule]) tempEvent55 100 emptyState
      = Except.ok (EvaluateRules alwaysFail [tempRule] tempEvent55 100 emptyState)
    ∧ shouldEvaluate tempRule 100 = true
    ∧ evaluateRule tempRule tempEvent55 = true
    ∧ (EvaluateRules alwaysFail [tempRule] tempEvent55 100
        emptyState).createAttempts = 1
    ∧ (EvaluateRules alwaysFail [tempRule] tempEvent55 100 emptyState).alerts
        = [] :=
  ⟨rfl, by decide, by decide, by decide, by decide⟩

/-- Claim C4 amended: if `alertRepo.Create` fails after a trigger
decision, the engine logs and drops the trigger: the write is attempted
exactly once, nothing else in the state changes, and the evaluation
still reports success to its caller. -/
theorem C4_amended_create_failure_logged_and_dropped
    (createOk : Alert → Bool) (rule : Rule) (telemetry : TelemetryPayload)
    (now : Nat) (s : EngineState)
    (hse : shouldEvaluate rule now = true)
    (hBreach : evaluateRule rule telemetry = true)
    (hfail : createOk (mkAlert rule telemetry now) = false) :
    EvaluateRulesE createOk (Except.ok [rule]) telemetry now s
      = Except.ok { s with createAttempts := s.createAttempts + 1 } := by
  simp [EvaluateRulesE, EvaluateRules, evalRuleStep, hse, hBreach,
    handleRuleTrigger, hfail]

/-- Witness for the amended C4 at a concrete input: the Scenario A rule
with an always-failing repository. -/
theorem C4_amended_create_failure_witness :
    EvaluateRulesE alwaysFail (Except.ok [tempRule]) tempEvent55 100 emptyState
      = Except.ok { emptyState with
          createAttempts := emptyState.createAttempts + 1 } :=
  C4_amended_create_failure_logged_and_dropped alwaysFail tempRule
    tempEvent55 100 emptyState (by decide) (by decide) rfl

end FactoryOps
